import Mathlib

/-
Verification of the SimPy discrete-event simulation core (src/simpy/core.py).

The embedding is a shallow, executable translation of the kernel: the mutable
object graph of core.py becomes an explicit `Env` state record, every method
becomes a state-passing function `... → Env → Res α × Env`, Python exceptions
become the `Err` error channel, and the generator coroutines driven by
`Process._resume` become defunctionalised routine programs (`Prog`).  The heap
of the `heapq` module is modelled by its contract: `heappush` inserts an entry
into the bag and `heappop` removes the lexicographically least entry.
-/

namespace SimPy

/-- Python values flowing through the kernel.  `pending` models the unique
PENDING sentinel object of core.py; `dict` models an insertion-ordered Python
dict keyed by event identity (events are identified by allocation index).
`runtimeError`, `valueError`, `interrupt` and `userError` model exception
objects. -/
inductive PVal : Type where
  | pending : PVal
  | none : PVal
  | int : Int → PVal
  | interrupt : PVal → PVal
  | runtimeError : PVal
  | valueError : PVal
  | userError : Int → PVal
  | dict : List (Nat × PVal) → PVal

/-- `event.triggered` is `_value is not PENDING`; `isPending` is its negation
on the raw `_value`. -/
def isPending : PVal → Bool
  | PVal.pending => true
  | _ => false

/-- `isinstance(x, Exception)` for the modelled values (used by `Event.fail`). -/
def isExc : PVal → Bool
  | PVal.interrupt _ => true
  | PVal.runtimeError => true
  | PVal.valueError => true
  | PVal.userError _ => true
  | _ => false

/-- Errors propagating out of kernel operations: `emptySchedule` is the
EmptySchedule exception, `py e` is a raised Python exception value,
`attrError` an AttributeError, and `outOfFuel` marks exhaustion of the fuel
that makes the interpreter total (never raised by the Python code itself). -/
inductive Err : Type where
  | emptySchedule : Err
  | py : PVal → Err
  | attrError : Err
  | outOfFuel : Err

/-- Result channel of a kernel operation. -/
inductive Res (α : Type) : Type where
  | ok : α → Res α
  | err : Err → Res α

/-- An identifier of an event object (its allocation index in `Env.events`). -/
abbrev EId := Nat

/-- One entry of the scheduler queue: the tuple
`(time, priority, sequence, event)` pushed by `Environment.schedule`. -/
structure QEntry : Type where
  time : Int
  prio : Nat
  seq : Nat
  eid : EId
  deriving DecidableEq

/-- The lexicographic order on queue keys used by the heap:
`(time, priority, sequence)` compared left to right. -/
def keyLe (a b : QEntry) : Prop :=
  a.time < b.time ∨
    (a.time = b.time ∧
      (a.prio < b.prio ∨ (a.prio = b.prio ∧ a.seq ≤ b.seq)))

instance keyLeDec (a b : QEntry) : Decidable (keyLe a b) :=
  inferInstanceAs (Decidable (a.time < b.time ∨
    (a.time = b.time ∧
      (a.prio < b.prio ∨ (a.prio = b.prio ∧ a.seq ≤ b.seq)))))

/-- Binary minimum under `keyLe`, keeping the left argument on ties. -/
def pickMin (m e : QEntry) : QEntry := if keyLe m e then m else e

/-- The least entry of the queue (the element `heappop` returns). -/
def findMin : List QEntry → Option QEntry
  | [] => Option.none
  | x :: xs => Option.some (xs.foldl pickMin x)

/-- Model of `heappop`: remove and return the least entry of the bag. -/
def popMin (q : List QEntry) : Option (QEntry × List QEntry) :=
  match findMin q with
  | Option.none => Option.none
  | Option.some m => Option.some (m, q.erase m)

/-- Repeatedly `popMin` until the queue is empty: the order in which a fixed
queue is dispatched by successive `step` calls. -/
def drain : Nat → List QEntry → List QEntry
  | 0, _ => []
  | Nat.succ fuel, q =>
    match popMin q with
    | Option.none => []
    | Option.some (m, r) => m :: drain fuel r

theorem keyLe_total (a b : QEntry) : keyLe a b ∨ keyLe b a := by
  unfold keyLe; omega

theorem keyLe_refl (a : QEntry) : keyLe a a := by
  unfold keyLe; omega

theorem keyLe_trans {a b c : QEntry} (h1 : keyLe a b) (h2 : keyLe b c) :
    keyLe a c := by
  unfold keyLe at *; omega

theorem foldl_pickMin_le (l : List QEntry) (x : QEntry) :
    keyLe (l.foldl pickMin x) x ∧ ∀ y ∈ l, keyLe (l.foldl pickMin x) y := by
  induction l generalizing x with
  | nil => exact ⟨keyLe_refl x, by simp⟩
  | cons e es ih =>
    have h := ih (pickMin x e)
    have hx : keyLe (pickMin x e) x := by
      unfold pickMin
      split
      · exact keyLe_refl x
      · rcases keyLe_total x e with h' | h'
        · exact absurd h' (by assumption)
        · exact h'
    have he : keyLe (pickMin x e) e := by
      unfold pickMin
      split
      · assumption
      · exact keyLe_refl e
    refine ⟨keyLe_trans h.1 hx, ?_⟩
    intro y hy
    rcases List.mem_cons.mp hy with rfl | hy
    · exact keyLe_trans h.1 he
    · exact h.2 y hy

theorem foldl_pickMin_mem (l : List QEntry) (x : QEntry) :
    l.foldl pickMin x = x ∨ l.foldl pickMin x ∈ l := by
  induction l generalizing x with
  | nil => exact Or.inl rfl
  | cons e es ih =>
    rcases ih (pickMin x e) with h | h
    · rw [List.foldl_cons, h]
      unfold pickMin
      split
      · exact Or.inl rfl
      · exact Or.inr (List.mem_cons_self e es)
    · exact Or.inr (List.mem_cons_of_mem e h)

theorem popMin_mem {q : List QEntry} {m : QEntry} {r : List QEntry}
    (h : popMin q = Option.some (m, r)) : m ∈ q ∧ r = q.erase m := by
  unfold popMin at h
  match hq : q with
  | [] => simp [findMin] at h
  | x :: xs =>
    simp only [findMin, Option.some.injEq, Prod.mk.injEq] at h
    obtain ⟨rfl, rfl⟩ := h
    refine ⟨?_, rfl⟩
    rcases foldl_pickMin_mem xs x with h' | h'
    · rw [h']; exact List.mem_cons_self x xs
    · exact List.mem_cons_of_mem x h'

theorem popMin_le {q : List QEntry} {m : QEntry} {r : List QEntry}
    (h : popMin q = Option.some (m, r)) : ∀ y ∈ q, keyLe m y := by
  unfold popMin at h
  match hq : q with
  | [] => simp [findMin] at h
  | x :: xs =>
    simp only [findMin, Option.some.injEq, Prod.mk.injEq] at h
    intro y hy
    rcases List.mem_cons.mp hy with rfl | hy
    · rw [← h.1]; exact (foldl_pickMin_le xs y).1
    · rw [← h.1]; exact (foldl_pickMin_le xs x).2 y hy

theorem drain_subset {fuel : Nat} {q : List QEntry} :
    ∀ y ∈ drain fuel q, y ∈ q := by
  induction fuel generalizing q with
  | zero => simp [drain]
  | succ n ih =>
    intro y hy
    unfold drain at hy
    match hp : popMin q with
    | Option.none => rw [hp] at hy; simp at hy
    | Option.some (m, r) =>
      rw [hp] at hy
      rcases List.mem_cons.mp hy with rfl | hy
      · exact (popMin_mem hp).1
      · have hmem := ih y hy
        rw [(popMin_mem hp).2] at hmem
        exact List.erase_subset _ _ hmem

theorem drain_perm {fuel : Nat} {q : List QEntry} (h : q.length ≤ fuel) :
    (drain fuel q).Perm q := by
  induction fuel generalizing q with
  | zero =>
    have : q = [] := List.length_eq_zero.mp (Nat.le_zero.mp h)
    subst this; simp [drain]
  | succ n ih =>
    unfold drain
    match hp : popMin q with
    | Option.none =>
      have : q = [] := by
        unfold popMin at hp
        match q with
        | [] => rfl
        | x :: xs => simp [findMin] at hp
      subst this; simp
    | Option.some (m, r) =>
      obtain ⟨hm, hr⟩ := popMin_mem hp
      have hlen : r.length ≤ n := by
        rw [hr, List.length_erase_of_mem hm]
        omega
      have hperm := ih hlen
      have hq : q.Perm (m :: r) := by
        rw [hr]; exact List.perm_cons_erase hm
      exact (List.Perm.cons m hperm).trans hq.symm

theorem drain_pairwise (fuel : Nat) (q : List QEntry) :
    (drain fuel q).Pairwise keyLe := by
  induction fuel generalizing q with
  | zero => simp [drain]
  | succ n ih =>
    unfold drain
    match hp : popMin q with
    | Option.none => simp
    | Option.some (m, r) =>
      refine List.Pairwise.cons ?_ (ih r)
      intro y hy
      have hyr : y ∈ r := drain_subset y hy
      have hyq : y ∈ q := by
        rw [(popMin_mem hp).2] at hyr
        exact List.erase_subset _ _ hyr
      exact popMin_le hp y hyq

/-- Priority of interrupts and Initialize events. -/
def HIGH_PRIORITY : Nat := 0

/-- Default priority used by events. -/
def DEFAULT_PRIORITY : Nat := 1

/-- Priority of timeouts. -/
def LOW_PRIORITY : Nat := 2

/-- The two condition predicates `Condition.all_events` and
`Condition.any_events`. -/
inductive CondEval : Type where
  | allEvents : CondEval
  | anyEvents : CondEval
  deriving DecidableEq

/-- The Condition-specific attributes set by `Condition.__init__`. -/
structure CondRec : Type where
  evaluate : CondEval
  events : List EId
  subConditions : List EId
  interimValues : List (Nat × PVal)

/-- The callbacks the kernel installs on events, defunctionalised:
`Condition._check`, `Condition._collect_values`, `Process._resume` (each bound
to its owner object) and the module-level `_stop_simulate`. -/
inductive Callback : Type where
  | condCheck : EId → Callback
  | collectValues : EId → Callback
  | procResume : EId → Callback
  | stopSimulate : Callback
  deriving DecidableEq

/-- A routine body (the generator a Process drives), defunctionalised as a
program: it can create timeouts, plain events and conditions, succeed or fail
events, interrupt another process, yield an event (with an optional handler
for an exception thrown in at the yield, modelling try/except around the
yield), return a value, or raise. -/
inductive Prog : Type where
  | ret : PVal → Prog
  | raiseE : PVal → Prog
  | newTimeout : Int → PVal → (EId → Prog) → Prog
  | newEvent : (EId → Prog) → Prog
  | newCondition : CondEval → List EId → (EId → Prog) → Prog
  | succeedE : EId → PVal → Prog → Prog
  | failE : EId → PVal → Prog → Prog
  | interruptE : EId → PVal → Prog → Prog
  | yieldE : EId → (PVal → Prog) → Option (PVal → Prog) → Prog

/-- The state of a Process's generator: paused at a yield (with the send and
optional throw continuations) or exhausted. -/
inductive GenState : Type where
  | paused : (PVal → Prog) → Option (PVal → Prog) → GenState
  | finished : GenState

/-- The Process-specific attributes: the generator and `_target`. -/
structure ProcRec : Type where
  gen : GenState
  target : Option EId

/-- One event object: `_value` (with `PVal.pending` as the PENDING sentinel),
the `ok` flag (absent until first set, like the Python attribute), the
callback list (`Option.none` models the closed list of a processed event), the
`defused` flag (`hasattr(event, 'defused')`; the code only ever sets it to
True), and the optional Condition / Process extensions. -/
structure EventRec : Type where
  value : PVal
  ok : Option Bool
  callbacks : Option (List Callback)
  defused : Bool
  cond : Option CondRec
  proc : Option ProcRec

/-- The record a store lookup returns for an unallocated index (the model
only ever reads allocated indices on reachable states). -/
def defaultEventRec : EventRec :=
  { value := PVal.pending, ok := Option.none, callbacks := Option.some [],
    defused := false, cond := Option.none, proc := Option.none }

instance : Inhabited EventRec := ⟨defaultEventRec⟩

/-- The Environment: virtual clock, queue bag, sequence counter `_eid`,
active-process slot, and the store of all event objects (an event's identity
is its index in `events`). -/
structure Env : Type where
  now : Int
  queue : List QEntry
  eid : Nat
  activeProc : Option EId
  events : List EventRec

/-- `Environment.__init__(initial_time=0)`. -/
def initialEnv : Env :=
  { now := 0, queue := [], eid := 0, activeProc := Option.none, events := [] }

/-- Read an event object from the store. -/
def getEvPure (env : Env) (i : EId) : EventRec := env.events.getD i default

/-- Write an event object back to the store. -/
def envSetEv (env : Env) (i : EId) (r : EventRec) : Env :=
  { env with events := env.events.set i r }

/-- `Environment.schedule(event, priority, delay)`: push
`(now + delay, priority, next(eid), event)` onto the queue. -/
def schedule (env : Env) (eid : EId) (priority : Nat) (delay : Int) : Env :=
  { env with
      queue := env.queue ++ [⟨env.now + delay, priority, env.eid, eid⟩],
      eid := env.eid + 1 }

/-- `Event.__init__(env, value=PENDING)`: allocate a fresh event with the
given `_value`, an empty callback list, and no `ok` attribute. -/
def eventInit (env : Env) (value : PVal) : EId × Env :=
  (env.events.length,
   { env with
       events := env.events ++
         [{ value := value, ok := Option.none, callbacks := Option.some [],
            defused := false, cond := Option.none, proc := Option.none }] })

/-- `Event.succeed(value)`: RuntimeError if `_value` is not PENDING, else set
`ok := True`, `_value := value` and schedule at default priority. -/
def succeed (env : Env) (i : EId) (value : PVal) : Res Unit × Env :=
  let e := getEvPure env i
  if isPending e.value then
    let env1 := envSetEv env i { e with ok := Option.some true, value := value }
    (Res.ok (), schedule env1 i DEFAULT_PRIORITY 0)
  else (Res.err (Err.py PVal.runtimeError), env)

/-- `Event.fail(exception)`: ValueError if the argument is not an exception,
RuntimeError if already triggered, else set `ok := False`,
`_value := exception` and schedule at default priority. -/
def fail (env : Env) (i : EId) (exc : PVal) : Res Unit × Env :=
  if isExc exc = false then (Res.err (Err.py PVal.valueError), env)
  else
    let e := getEvPure env i
    if isPending e.value then
      let env1 := envSetEv env i { e with ok := Option.some false, value := exc }
      (Res.ok (), schedule env1 i DEFAULT_PRIORITY 0)
    else (Res.err (Err.py PVal.runtimeError), env)

/-- `Event.trigger(event)`: copy `ok` and `_value` from the source event and
schedule; note that, unlike succeed/fail, there is no already-triggered
check. -/
def trigger (env : Env) (i : EId) (src : EId) : Res Unit × Env :=
  let s := getEvPure env src
  match s.ok with
  | Option.none => (Res.err Err.attrError, env)
  | Option.some b =>
    let e := getEvPure env i
    let env1 := envSetEv env i { e with ok := Option.some b, value := s.value }
    (Res.ok (), schedule env1 i DEFAULT_PRIORITY 0)

/-- Membership in an insertion-ordered dict. -/
def dictMem (m : List (Nat × PVal)) (k : Nat) : Bool :=
  m.any (fun p => p.1 == k)

/-- `m[k] = v` on an insertion-ordered dict: update in place if the key is
present, else append. -/
def dictSet (m : List (Nat × PVal)) (k : Nat) (v : PVal) : List (Nat × PVal) :=
  if dictMem m k then m.map (fun p => if p.1 == k then (k, v) else p)
  else m ++ [(k, v)]

/-- `del m[k]` on an insertion-ordered dict. -/
def dictDel (m : List (Nat × PVal)) (k : Nat) : List (Nat × PVal) :=
  m.filter (fun p => p.1 != k)

/-- `m.update(other)` on insertion-ordered dicts. -/
def dictUpdate (m other : List (Nat × PVal)) : List (Nat × PVal) :=
  other.foldl (fun acc p => dictSet acc p.1 p.2) m

/-- `Condition._add_event(event)`: RuntimeError if this condition's or the
child's callback list is closed; record Condition children in
`_sub_conditions`; append the child to `_events` and register `_check` on the
child's callbacks.  (The env-mismatch guard of the source compares the two
events' environments; the model has a single environment, so that guard always
passes.) -/
def condAddEvent (env : Env) (cid : EId) (child : EId) : Res Unit × Env :=
  let c := getEvPure env cid
  if c.callbacks.isNone then (Res.err (Err.py PVal.runtimeError), env)
  else
    let e := getEvPure env child
    if e.callbacks.isNone then (Res.err (Err.py PVal.runtimeError), env)
    else
      match c.cond with
      | Option.none => (Res.ok (), env)
      | Option.some cr =>
        let cr1 :=
          if (e.cond).isSome then
            { cr with subConditions := cr.subConditions ++ [child] }
          else cr
        let cr2 := { cr1 with events := cr1.events ++ [child] }
        let env1 := envSetEv env cid { c with cond := Option.some cr2 }
        let e1 := getEvPure env1 child
        let env2 := envSetEv env1 child
          { e1 with callbacks :=
              Option.some ((e1.callbacks.getD []) ++ [Callback.condCheck cid]) }
        (Res.ok (), env2)

/-- The predicates `Condition.all_events` (`len(events) == len(values)`) and
`Condition.any_events` (`len(values) > 0 or len(events) == 0`). -/
def evalCond : CondEval → List EId → List (Nat × PVal) → Bool
  | CondEval.allEvents, events, values => events.length == values.length
  | CondEval.anyEvents, events, values =>
      decide (0 < values.length) || (events.length == 0)

/-- `Condition._check(event)`: record the child's value in `_interim_values`;
if the condition is still pending, either defuse the failed child and fail the
condition with the child's value, or succeed with an empty dict when the
predicate is met. -/
def condCheck (env : Env) (cid : EId) (evId : EId) : Res Unit × Env :=
  let e := getEvPure env evId
  let c := getEvPure env cid
  match c.cond with
  | Option.none => (Res.ok (), env)
  | Option.some cr =>
    let cr1 := { cr with interimValues := dictSet cr.interimValues evId e.value }
    let env1 := envSetEv env cid { c with cond := Option.some cr1 }
    if isPending (getEvPure env1 cid).value then
      match e.ok with
      | Option.none => (Res.err Err.attrError, env1)
      | Option.some false =>
        let e1 := getEvPure env1 evId
        let env2 := envSetEv env1 evId { e1 with defused := true }
        fail env2 cid e.value
      | Option.some true =>
        if evalCond cr1.evaluate cr1.events cr1.interimValues then
          succeed env1 cid (PVal.dict [])
        else (Res.ok (), env1)
    else (Res.ok (), env1)

/-- The loop over `_sub_conditions` inside `Condition._get_values()`: delete
the sub-condition's own entry, then merge its flattened values (obtained from
the recursive call passed in as `getV`). -/
def getValuesList (getV : Env → EId → Res (List (Nat × PVal))) :
    Env → List EId → List (Nat × PVal) → Res (List (Nat × PVal))
  | _, [], values => Res.ok values
  | env, sub :: rest, values =>
    let values1 := if dictMem values sub then dictDel values sub else values
    match getV env sub with
    | Res.err e => Res.err e
    | Res.ok svals => getValuesList getV env rest (dictUpdate values1 svals)

/-- `Condition._get_values()`: copy `_interim_values` and flatten the nested
sub-conditions into it (read-only; fuel bounds the nesting depth). -/
def getValues : Nat → Env → EId → Res (List (Nat × PVal))
  | 0, _, _ => Res.err Err.outOfFuel
  | Nat.succ fuel, env, cid =>
    match (getEvPure env cid).cond with
    | Option.none => Res.ok []
    | Option.some cr =>
      getValuesList (getValues fuel) env cr.subConditions cr.interimValues

/-- `Condition._collect_values(event)`: when the processed condition is
successful, update its `_value` dict with the flattened values. -/
def collectValues (fuel : Nat) (env : Env) (cid : EId) (evId : EId) :
    Res Unit × Env :=
  let e := getEvPure env evId
  match e.ok with
  | Option.none => (Res.err Err.attrError, env)
  | Option.some false => (Res.ok (), env)
  | Option.some true =>
    match getValues fuel env cid with
    | Res.err er => (Res.err er, env)
    | Res.ok vals =>
      let c := getEvPure env cid
      match c.value with
      | PVal.dict m =>
        (Res.ok (), envSetEv env cid { c with value := PVal.dict (dictUpdate m vals) })
      | _ => (Res.err Err.attrError, env)

/-- The `for event in events: self._add_event(event)` loop of
`Condition.__init__`. -/
def condAddList (env : Env) (cid : EId) : List EId → Res Unit × Env
  | [] => (Res.ok (), env)
  | child :: rest =>
    match condAddEvent env cid child with
    | (Res.ok _, env1) => condAddList env1 cid rest
    | (Res.err e, env1) => (Res.err e, env1)

/-- `Condition.__init__(env, evaluate, events)`: allocate the event, set the
condition attributes, add every child, register `_collect_values` on itself,
and succeed immediately with `{}` if the predicate already holds. -/
def conditionInit (env : Env) (ev : CondEval) (children : List EId) :
    Res EId × Env :=
  let (cid, env0) := eventInit env PVal.pending
  let c := getEvPure env0 cid
  let cr0 : CondRec :=
    { evaluate := ev, events := [], subConditions := [], interimValues := [] }
  let env1 := envSetEv env0 cid { c with cond := Option.some cr0 }
  match condAddList env1 cid children with
  | (Res.err e, env2) => (Res.err e, env2)
  | (Res.ok _, env2) =>
    let c2 := getEvPure env2 cid
    let env3 := envSetEv env2 cid
      { c2 with callbacks :=
          Option.some ((c2.callbacks.getD []) ++ [Callback.collectValues cid]) }
    match (getEvPure env3 cid).cond with
    | Option.none => (Res.ok cid, env3)
    | Option.some cr =>
      if evalCond cr.evaluate cr.events cr.interimValues then
        match succeed env3 cid (PVal.dict []) with
        | (Res.ok _, env4) => (Res.ok cid, env4)
        | (Res.err e, env4) => (Res.err e, env4)
      else (Res.ok cid, env3)

/-- `Timeout.__init__(env, delay, value)`: ValueError on a negative delay
(nothing is scheduled), else allocate the event already triggered as a success
with the given value and schedule it at `now + delay` with low priority. -/
def timeoutInit (env : Env) (delay : Int) (value : PVal) : Res EId × Env :=
  if delay < 0 then (Res.err (Err.py PVal.valueError), env)
  else
    let i := env.events.length
    let env1 := { env with
      events := env.events ++
        [{ value := value, ok := Option.some true, callbacks := Option.some [],
           defused := false, cond := Option.none, proc := Option.none }] }
    (Res.ok i, schedule env1 i LOW_PRIORITY delay)

/-- `Initialize.__init__(env, process)`: an already-successful event whose
only callback is the process's `_resume`, scheduled at high priority. -/
def initProcessEvent (env : Env) (pid : EId) : EId × Env :=
  let i := env.events.length
  let env1 := { env with
    events := env.events ++
      [{ value := PVal.none, ok := Option.some true,
         callbacks := Option.some [Callback.procResume pid], defused := false,
         cond := Option.none, proc := Option.none }] }
  (i, schedule env1 i HIGH_PRIORITY 0)

/-- `Process.__init__(env, generator)`: allocate the process event (pending),
then create and target its Initialize bootstrap event. -/
def processInit (env : Env) (routine : Prog) : EId × Env :=
  let pid := env.events.length
  let env1 := { env with
    events := env.events ++
      [{ value := PVal.pending, ok := Option.none, callbacks := Option.some [],
         defused := false, cond := Option.none,
         proc := Option.some
           { gen := GenState.paused (fun _ => routine) Option.none,
             target := Option.none } }] }
  let (ini, env2) := initProcessEvent env1 pid
  let p := getEvPure env2 pid
  match p.proc with
  | Option.none => (pid, env2)
  | Option.some pr =>
    (pid, envSetEv env2 pid
      { p with proc := Option.some { pr with target := Option.some ini } })

/-- `Process.interrupt(cause)`: RuntimeError if the process has terminated,
RuntimeError if it is the active process; otherwise build a fresh event whose
value is an Interrupt payload, mark it failed and defused, register the
process's `_resume`, and schedule it at high priority. -/
def interruptProc (env : Env) (pid : EId) (cause : PVal) : Res Unit × Env :=
  let p := getEvPure env pid
  if isPending p.value = false then (Res.err (Err.py PVal.runtimeError), env)
  else if env.activeProc = Option.some pid then
    (Res.err (Err.py PVal.runtimeError), env)
  else
    let (i, env1) := eventInit env (PVal.interrupt cause)
    let e := getEvPure env1 i
    let env2 := envSetEv env1 i
      { e with
          ok := Option.some false,
          defused := true,
          callbacks := Option.some ((e.callbacks.getD []) ++ [Callback.procResume pid]) }
    (Res.ok (), schedule env2 i HIGH_PRIORITY 0)

/-- The outcome of running a routine until it suspends: it yielded an event,
terminated with a return value (StopIteration), or raised. -/
inductive ProgOut : Type where
  | yielded : EId → (PVal → Prog) → Option (PVal → Prog) → ProgOut
  | finished : PVal → ProgOut
  | raised : PVal → ProgOut

/-- Run a routine body until it yields, returns or raises.  A Python
exception raised by a kernel operation called from inside the routine
propagates as the routine raising (it would escape `generator.send`). -/
def progRun : Nat → Env → Prog → Res ProgOut × Env
  | 0, env, _ => (Res.err Err.outOfFuel, env)
  | Nat.succ fuel, env, p =>
    match p with
    | Prog.ret v => (Res.ok (ProgOut.finished v), env)
    | Prog.raiseE v => (Res.ok (ProgOut.raised v), env)
    | Prog.yieldE i k h => (Res.ok (ProgOut.yielded i k h), env)
    | Prog.newTimeout d v k =>
      match timeoutInit env d v with
      | (Res.ok i, env1) => progRun fuel env1 (k i)
      | (Res.err (Err.py e), env1) => (Res.ok (ProgOut.raised e), env1)
      | (Res.err er, env1) => (Res.err er, env1)
    | Prog.newEvent k =>
      let (i, env1) := eventInit env PVal.pending
      progRun fuel env1 (k i)
    | Prog.newCondition ce cs k =>
      match conditionInit env ce cs with
      | (Res.ok i, env1) => progRun fuel env1 (k i)
      | (Res.err (Err.py e), env1) => (Res.ok (ProgOut.raised e), env1)
      | (Res.err er, env1) => (Res.err er, env1)
    | Prog.succeedE i v k =>
      match succeed env i v with
      | (Res.ok _, env1) => progRun fuel env1 k
      | (Res.err (Err.py e), env1) => (Res.ok (ProgOut.raised e), env1)
      | (Res.err er, env1) => (Res.err er, env1)
    | Prog.failE i v k =>
      match fail env i v with
      | (Res.ok _, env1) => progRun fuel env1 k
      | (Res.err (Err.py e), env1) => (Res.ok (ProgOut.raised e), env1)
      | (Res.err er, env1) => (Res.err er, env1)
    | Prog.interruptE i c k =>
      match interruptProc env i c with
      | (Res.ok _, env1) => progRun fuel env1 k
      | (Res.err (Err.py e), env1) => (Res.ok (ProgOut.raised e), env1)
      | (Res.err er, env1) => (Res.err er, env1)

/-- `list.remove(x)` on a callback list that may be closed (used by `_resume`
to leave the superseded target's callbacks). -/
def removeCallback (env : Env) (t : EId) (cb : Callback) : Res Unit × Env :=
  let te := getEvPure env t
  match te.callbacks with
  | Option.none => (Res.err Err.attrError, env)
  | Option.some l =>
    (Res.ok (), envSetEv env t { te with callbacks := Option.some (l.erase cb) })

/-- The `while True` driver loop of `Process._resume`: step the generator
with the delivered event (send on success; defuse then throw on failure),
then either terminate the process, suspend it on the yielded event, or — when
the yielded event's callback list is already closed — continue immediately
with that event. -/
def resumeLoop : Nat → Env → EId → EId → Res Unit × Env
  | 0, env, _, _ => (Res.err Err.outOfFuel, env)
  | Nat.succ fuel, env, pid, evId =>
    let e := getEvPure env evId
    match (getEvPure env pid).proc with
    | Option.none => (Res.ok (), env)
    | Option.some pr =>
      let stepGen : Res ProgOut × Env :=
        match e.ok with
        | Option.none => (Res.err Err.attrError, env)
        | Option.some true =>
          match pr.gen with
          | GenState.paused k _ => progRun fuel env (k e.value)
          | GenState.finished => (Res.ok (ProgOut.finished PVal.none), env)
        | Option.some false =>
          let env1 := envSetEv env evId { e with defused := true }
          match pr.gen with
          | GenState.paused _ (Option.some h) => progRun fuel env1 (h e.value)
          | GenState.paused _ Option.none => (Res.ok (ProgOut.raised e.value), env1)
          | GenState.finished => (Res.ok (ProgOut.raised e.value), env1)
      match stepGen with
      | (Res.err er, env1) => (Res.err er, env1)
      | (Res.ok (ProgOut.finished v), env1) =>
        let p1 := getEvPure env1 pid
        let deadPr : ProcRec := { gen := GenState.finished, target := Option.none }
        let env2 := envSetEv env1 pid
          { p1 with
              ok := Option.some true,
              value := v,
              proc := Option.some deadPr }
        let env3 := schedule env2 pid DEFAULT_PRIORITY 0
        (Res.ok (), { env3 with activeProc := Option.none })
      | (Res.ok (ProgOut.raised ex), env1) =>
        let p1 := getEvPure env1 pid
        let deadPr : ProcRec := { gen := GenState.finished, target := Option.none }
        let env2 := envSetEv env1 pid
          { p1 with
              ok := Option.some false,
              value := ex,
              proc := Option.some deadPr }
        let env3 := schedule env2 pid DEFAULT_PRIORITY 0
        (Res.ok (), { env3 with activeProc := Option.none })
      | (Res.ok (ProgOut.yielded tid k h), env1) =>
        let te := getEvPure env1 tid
        match te.callbacks with
        | Option.some l =>
          let env2 := envSetEv env1 tid
            { te with callbacks := Option.some (l ++ [Callback.procResume pid]) }
          let p1 := getEvPure env2 pid
          let waitPr : ProcRec :=
            { gen := GenState.paused k h, target := Option.some tid }
          let env3 :=
            match p1.proc with
            | Option.none => env2
            | Option.some _ =>
              envSetEv env2 pid { p1 with proc := Option.some waitPr }
          (Res.ok (), { env3 with activeProc := Option.none })
        | Option.none =>
          let p1 := getEvPure env1 pid
          let env2 :=
            match p1.proc with
            | Option.none => env1
            | Option.some pr1 =>
              let contPr : ProcRec :=
                { gen := GenState.paused k h, target := pr1.target }
              envSetEv env1 pid { p1 with proc := Option.some contPr }
          resumeLoop fuel env2 pid tid

/-- `Process._resume(event)`: drop the call silently if the process has
terminated; if the delivered event is not the recorded target, remove
`_resume` from the target's callbacks; mark the process active and enter the
driver loop. -/
def resume (fuel : Nat) (env : Env) (pid : EId) (evId : EId) : Res Unit × Env :=
  let p := getEvPure env pid
  if isPending p.value = false then (Res.ok (), env)
  else
    match p.proc with
    | Option.none => (Res.ok (), env)
    | Option.some pr =>
      let afterRemove : Res Unit × Env :=
        if pr.target = Option.some evId then (Res.ok (), env)
        else
          match pr.target with
          | Option.none => (Res.err Err.attrError, env)
          | Option.some t => removeCallback env t (Callback.procResume pid)
      match afterRemove with
      | (Res.err er, env1) => (Res.err er, env1)
      | (Res.ok _, env1) =>
        resumeLoop fuel { env1 with activeProc := Option.some pid } pid evId

/-- Dispatch one stored callback on the event being processed. -/
def runCallback (fuel : Nat) (env : Env) (cb : Callback) (evId : EId) :
    Res Unit × Env :=
  match cb with
  | Callback.condCheck cid => condCheck env cid evId
  | Callback.collectValues cid => collectValues fuel env cid evId
  | Callback.procResume pid => resume fuel env pid evId
  | Callback.stopSimulate => (Res.err Err.emptySchedule, env)

/-- The `for callback in event.callbacks: callback(event)` loop of `step()`.
Iteration is by index against the current list, like a Python list iterator,
so callbacks appended during processing are also run. -/
def runCallbacksFrom : Nat → Env → EId → Nat → Res Unit × Env
  | 0, env, _, _ => (Res.err Err.outOfFuel, env)
  | Nat.succ fuel, env, evId, idx =>
    match (getEvPure env evId).callbacks with
    | Option.none => (Res.ok (), env)
    | Option.some l =>
      if h : idx < l.length then
        match runCallback fuel env (l.get ⟨idx, h⟩) evId with
        | (Res.ok _, env1) => runCallbacksFrom fuel env1 evId (idx + 1)
        | (Res.err er, env1) => (Res.err er, env1)
      else (Res.ok (), env)

/-- The body of `Environment.step()` after the pop: run the callbacks, close
the callback list, and re-raise the value of a failed, non-defused event. -/
def stepPopped (fuel : Nat) (env : Env) (evId : EId) : Res Unit × Env :=
  match runCallbacksFrom fuel env evId 0 with
  | (Res.err er, env1) => (Res.err er, env1)
  | (Res.ok _, env1) =>
    let e := getEvPure env1 evId
    let env2 := envSetEv env1 evId { e with callbacks := Option.none }
    let e2 := getEvPure env2 evId
    match e2.ok with
    | Option.none => (Res.err Err.attrError, env2)
    | Option.some true => (Res.ok (), env2)
    | Option.some false =>
      if e2.defused then (Res.ok (), env2)
      else (Res.err (Err.py e2.value), env2)

/-- `Environment.step()`: EmptySchedule on an empty queue, else pop the least
entry, advance `now` to its time, and process the event. -/
def step (fuel : Nat) (env : Env) : Res Unit × Env :=
  match popMin env.queue with
  | Option.none => (Res.err Err.emptySchedule, env)
  | Option.some (m, r) => stepPopped fuel { env with now := m.time, queue := r } m.eid

/-- The `while True: self.step()` loop of `BaseEnvironment.run`. -/
def runLoop : Nat → Env → Res Unit × Env
  | 0, env => (Res.err Err.outOfFuel, env)
  | Nat.succ fuel, env =>
    match step fuel env with
    | (Res.ok _, env1) => runLoop fuel env1
    | (Res.err er, env1) => (Res.err er, env1)

/-- The tail of `BaseEnvironment.run` once the `until` event is fixed: append
`_stop_simulate` to its callbacks, loop `step()` absorbing EmptySchedule (and
only EmptySchedule), and return `until.value if until.triggered else None`. -/
def finishRun (fuel : Nat) (env : Env) (uid : EId) : Res PVal × Env :=
  let e := getEvPure env uid
  match e.callbacks with
  | Option.none => (Res.err Err.attrError, env)
  | Option.some l =>
    let env1 := envSetEv env uid
      { e with callbacks := Option.some (l ++ [Callback.stopSimulate]) }
    match runLoop fuel env1 with
    | (Res.ok _, env2) =>
      let uev := getEvPure env2 uid
      (Res.ok (if isPending uev.value then PVal.none else uev.value), env2)
    | (Res.err Err.emptySchedule, env2) =>
      let uev := getEvPure env2 uid
      (Res.ok (if isPending uev.value then PVal.none else uev.value), env2)
    | (Res.err er, env2) => (Res.err er, env2)

/-- The three shapes of `run`'s `until` argument. -/
inductive Until : Type where
  | noneU : Until
  | event : EId → Until
  | time : Int → Until

/-- `BaseEnvironment.run(until)`: with no criterion, a fresh never-triggered
event; with an event, that event; with a time `T`, require `T > now`
(ValueError otherwise), then a fresh already-valued event scheduled at
`T - now` with high priority. -/
def run (fuel : Nat) (env : Env) (u : Until) : Res PVal × Env :=
  match u with
  | Until.noneU =>
    let (uid, env1) := eventInit env PVal.pending
    finishRun fuel env1 uid
  | Until.event i => finishRun fuel env i
  | Until.time t =>
    if t ≤ env.now then (Res.err (Err.py PVal.valueError), env)
    else
      let (uid, env1) := eventInit env PVal.pending
      let e := getEvPure env1 uid
      let env2 := envSetEv env1 uid { e with value := PVal.none }
      let env3 := schedule env2 uid HIGH_PRIORITY (t - env.now)
      finishRun fuel env3 uid

theorem getEvPure_set_self (env : Env) (i : EId) (r : EventRec)
    (h : i < env.events.length) : getEvPure (envSetEv env i r) i = r := by
  simp [getEvPure, envSetEv, List.getD_eq_getElem?_getD, List.getElem?_set_self',
    List.getElem?_eq_getElem h]

theorem getEvPure_set_ne (env : Env) (i j : EId) (r : EventRec)
    (h : j ≠ i) : getEvPure (envSetEv env i r) j = getEvPure env j := by
  simp [getEvPure, envSetEv, List.getD_eq_getElem?_getD,
    List.getElem?_set_ne (Ne.symm h)]

theorem getEvPure_append_self (env : Env) (r : EventRec) :
    getEvPure { env with events := env.events ++ [r] } env.events.length = r := by
  simp [getEvPure, List.getD_eq_getElem?_getD]

theorem lt_of_cond_some {env : Env} {i : EId} {cr : CondRec}
    (h : (getEvPure env i).cond = Option.some cr) : i < env.events.length := by
  by_contra hn
  push_neg at hn
  rw [getEvPure, List.getD_eq_default _ _ hn] at h
  exact Option.noConfusion h

theorem lt_of_ok_some {env : Env} {i : EId} {b : Bool}
    (h : (getEvPure env i).ok = Option.some b) : i < env.events.length := by
  by_contra hn
  push_neg at hn
  rw [getEvPure, List.getD_eq_default _ _ hn] at h
  exact Option.noConfusion h

theorem lt_of_not_pending {env : Env} {i : EId}
    (h : isPending (getEvPure env i).value = false) : i < env.events.length := by
  by_contra hn
  push_neg at hn
  rw [getEvPure, List.getD_eq_default _ _ hn] at h
  simp [defaultEventRec, isPending, default] at h

theorem lt_of_callbacks_none {env : Env} {i : EId}
    (h : (getEvPure env i).callbacks = Option.none) : i < env.events.length := by
  by_contra hn
  push_neg at hn
  rw [getEvPure, List.getD_eq_default _ _ hn] at h
  exact Option.noConfusion h

/-- A sequence of `Environment.schedule` calls: each element carries the
event id, the priority and the delay. -/
def pushAll (env : Env) (ps : List (EId × Nat × Int)) : Env :=
  ps.foldl (fun e p => schedule e p.1 p.2.1 p.2.2) env

/-- The queue entries that a sequence of `schedule` calls creates, with the
sequence counter starting at `eid0`: insertion order is reflected in strictly
increasing sequence numbers. -/
def pushKeys (now : Int) (eid0 : Nat) : List (EId × Nat × Int) → List QEntry
  | [] => []
  | p :: rest => ⟨now + p.2.2, p.2.1, eid0, p.1⟩ :: pushKeys now (eid0 + 1) rest

theorem pushAll_queue (env : Env) (ps : List (EId × Nat × Int)) :
    (pushAll env ps).queue = env.queue ++ pushKeys env.now env.eid ps := by
  induction ps generalizing env with
  | nil => simp [pushAll, pushKeys]
  | cons p rest ih =>
    show (pushAll (schedule env p.1 p.2.1 p.2.2) rest).queue = _
    rw [ih]
    simp [schedule, pushKeys, List.append_assoc]

theorem pushKeys_seq_lt (now : Int) (eid0 : Nat) (ps : List (EId × Nat × Int)) :
    (∀ x ∈ pushKeys now eid0 ps, eid0 ≤ x.seq) ∧
      (pushKeys now eid0 ps).Pairwise (fun a b => a.seq < b.seq) := by
  induction ps generalizing eid0 with
  | nil => simp [pushKeys]
  | cons p rest ih =>
    obtain ⟨h1, h2⟩ := ih (eid0 + 1)
    refine ⟨?_, ?_⟩
    · intro x hx
      rcases List.mem_cons.mp hx with rfl | hx
      · exact Nat.le_refl eid0
      · exact Nat.le_of_succ_le (h1 x hx)
    · exact List.Pairwise.cons (fun y hy => h1 y hy) h2

/-- C1.  For every sequence of events pushed via `Environment.schedule`,
`Environment.step` dispatches them in lexicographic
`(time, priority, insertion-sequence)` order: draining the resulting queue
dispatches every pushed entry exactly once (permutation), in `keyLe` order
(earlier time first, then numerically lower priority, then lower sequence
number); at equal time and priority the sequence numbers are ordered, and the
sequence counter increases in insertion order (FIFO); `step` itself pops
exactly the `popMin` entry and advances `now` to its time. -/
theorem C1_dispatch_lex_order (env : Env) (ps : List (EId × Nat × Int))
    (fuel : Nat) (hfuel : (pushAll env ps).queue.length ≤ fuel) :
    (drain fuel (pushAll env ps).queue).Perm (pushAll env ps).queue ∧
    (drain fuel (pushAll env ps).queue).Pairwise keyLe ∧
    (∀ (i j : Fin (drain fuel (pushAll env ps).queue).length), i < j →
      ((drain fuel (pushAll env ps).queue).get i).time =
        ((drain fuel (pushAll env ps).queue).get j).time →
      ((drain fuel (pushAll env ps).queue).get i).prio =
        ((drain fuel (pushAll env ps).queue).get j).prio →
      ((drain fuel (pushAll env ps).queue).get i).seq ≤
        ((drain fuel (pushAll env ps).queue).get j).seq) ∧
    (pushAll env ps).queue = env.queue ++ pushKeys env.now env.eid ps ∧
    (pushKeys env.now env.eid ps).Pairwise (fun a b => a.seq < b.seq) ∧
    (∀ (fuel2 : Nat) (m : QEntry) (r : List QEntry),
      popMin env.queue = Option.some (m, r) →
      step fuel2 env = stepPopped fuel2 { env with now := m.time, queue := r } m.eid) := by
  refine ⟨drain_perm hfuel, drain_pairwise fuel _, ?_, pushAll_queue env ps,
    (pushKeys_seq_lt env.now env.eid ps).2, ?_⟩
  · intro i j hij ht hp
    have hle := (List.pairwise_iff_get.mp (drain_pairwise fuel _)) i j hij
    unfold keyLe at hle
    omega
  · intro fuel2 m r hpop
    unfold step
    rw [hpop]

/-- Witness for C1 at a concrete push sequence. -/
theorem C1_dispatch_lex_order_witness :
    (pushAll initialEnv [(0, 2, 5), (1, 0, 5), (2, 1, 3)]).queue.length ≤ 3 ∧
    ((drain 3 (pushAll initialEnv [(0, 2, 5), (1, 0, 5), (2, 1, 3)]).queue).Perm
        (pushAll initialEnv [(0, 2, 5), (1, 0, 5), (2, 1, 3)]).queue ∧
      (drain 3 (pushAll initialEnv [(0, 2, 5), (1, 0, 5), (2, 1, 3)]).queue).Pairwise keyLe) :=
  ⟨by decide,
   (C1_dispatch_lex_order initialEnv [(0, 2, 5), (1, 0, 5), (2, 1, 3)] 3 (by decide)).1,
   (C1_dispatch_lex_order initialEnv [(0, 2, 5), (1, 0, 5), (2, 1, 3)] 3 (by decide)).2.1⟩

theorem set_append_length {α : Type} (l : List α) (a b : α) :
    (l ++ [a]).set l.length b = l ++ [b] := by
  induction l with
  | nil => simp
  | cons x xs ih => simp [List.set, ih]

/-- C8.  `Timeout(env, delay, value)`: a negative delay raises a
ValueError-kind and leaves the environment unchanged (nothing is scheduled);
a non-negative delay allocates the timeout already triggered as a success
carrying the given value (`ok = True`, `_value = value`) and schedules it at
`env.now + delay` with low priority. -/
theorem C8_timeout_init (env : Env) (d : Int) (v : PVal) :
    (d < 0 → timeoutInit env d v = (Res.err (Err.py PVal.valueError), env)) ∧
    (0 ≤ d → timeoutInit env d v =
      (Res.ok env.events.length,
       { env with
           events := env.events ++
             [{ value := v, ok := Option.some true, callbacks := Option.some [],
                defused := false, cond := Option.none, proc := Option.none }],
           queue := env.queue ++
             [⟨env.now + d, LOW_PRIORITY, env.eid, env.events.length⟩],
           eid := env.eid + 1 })) := by
  constructor
  · intro h
    unfold timeoutInit
    rw [if_pos h]
  · intro h
    unfold timeoutInit schedule
    rw [if_neg (by omega)]

/-- Witness for C8 on both branches. -/
theorem C8_timeout_init_witness :
    ((-1 : Int) < 0 ∧
      timeoutInit initialEnv (-1) (PVal.int 7) =
        (Res.err (Err.py PVal.valueError), initialEnv)) ∧
    ((0 : Int) ≤ 5 ∧ (timeoutInit initialEnv 5 (PVal.int 7)).1 = Res.ok 0 ∧
      (getEvPure (timeoutInit initialEnv 5 (PVal.int 7)).2 0).ok = Option.some true ∧
      (getEvPure (timeoutInit initialEnv 5 (PVal.int 7)).2 0).value = PVal.int 7 ∧
      (timeoutInit initialEnv 5 (PVal.int 7)).2.queue = [⟨5, LOW_PRIORITY, 0, 0⟩]) :=
  ⟨⟨by decide, (C8_timeout_init initialEnv (-1) (PVal.int 7)).1 (by decide)⟩,
   ⟨by decide,
    by rw [(C8_timeout_init initialEnv 5 (PVal.int 7)).2 (by decide)]; rfl,
    by rw [(C8_timeout_init initialEnv 5 (PVal.int 7)).2 (by decide)]; rfl,
    by rw [(C8_timeout_init initialEnv 5 (PVal.int 7)).2 (by decide)]; rfl,
    by rw [(C8_timeout_init initialEnv 5 (PVal.int 7)).2 (by decide)]; rfl⟩⟩

/-- C3 counterexample: a fresh `Timeout` is already triggered (its value is
no longer pending), yet `Condition.__init__` accepts it as a child without
raising: the admission check of `_add_event` tests `callbacks is None`
(processed), not `triggered`. -/
theorem C3_counterexample :
    isPending (getEvPure (timeoutInit initialEnv 0 (PVal.int 0)).2 0).value = false ∧
    (conditionInit (timeoutInit initialEnv 0 (PVal.int 0)).2 CondEval.allEvents [0]).1 =
      Res.ok 1 :=
  ⟨rfl, rfl⟩

/-- C3 (amended).  `Condition._add_event` (used at construction and by the
in-place merge operators) raises a RuntimeError-kind when the condition's own
callback list is closed or when the child's callback list is closed (the
child has been *processed*); any child whose callback list is still open is
admitted — including events that are already triggered but not yet
processed, such as fresh timeouts. -/
theorem C3_condition_child_admission (env : Env) (cid child : EId) :
    ((getEvPure env cid).callbacks = Option.none →
      condAddEvent env cid child = (Res.err (Err.py PVal.runtimeError), env)) ∧
    ((getEvPure env cid).callbacks ≠ Option.none →
      (getEvPure env child).callbacks = Option.none →
      condAddEvent env cid child = (Res.err (Err.py PVal.runtimeError), env)) ∧
    ((getEvPure env cid).callbacks ≠ Option.none →
      (getEvPure env child).callbacks ≠ Option.none →
      (condAddEvent env cid child).1 = Res.ok ()) := by
  refine ⟨?_, ?_, ?_⟩
  · intro h
    simp [condAddEvent, h]
  · intro hc h
    obtain ⟨lc, hlc⟩ := Option.ne_none_iff_exists'.mp hc
    simp [condAddEvent, h, hlc]
  · intro hc h
    obtain ⟨lc, hlc⟩ := Option.ne_none_iff_exists'.mp hc
    obtain ⟨le, hle⟩ := Option.ne_none_iff_exists'.mp h
    simp only [condAddEvent, hlc, hle, Option.isNone_some, Bool.false_eq_true,
      if_false]
    split <;> rfl

/-- Environment with event 0 a processed timeout (callback list closed). -/
def c3ProcEnv : Env := (step 10 (timeoutInit initialEnv 0 (PVal.int 0)).2).2

/-- Environment with, additionally, a fresh pending event 1. -/
def c3FreshEnv : Env := (eventInit c3ProcEnv PVal.pending).2

/-- Witness for the amended C3 on all three branches. -/
theorem C3_condition_child_admission_witness :
    ((getEvPure c3ProcEnv 0).callbacks = Option.none ∧
      condAddEvent c3ProcEnv 0 0 = (Res.err (Err.py PVal.runtimeError), c3ProcEnv)) ∧
    ((getEvPure c3FreshEnv 1).callbacks ≠ Option.none ∧
      (getEvPure c3FreshEnv 0).callbacks = Option.none ∧
      condAddEvent c3FreshEnv 1 0 = (Res.err (Err.py PVal.runtimeError), c3FreshEnv)) ∧
    ((getEvPure c3FreshEnv 1).callbacks ≠ Option.none ∧
      (condAddEvent c3FreshEnv 1 1).1 = Res.ok ()) :=
  ⟨⟨rfl, (C3_condition_child_admission c3ProcEnv 0 0).1 rfl⟩,
   ⟨by decide, rfl,
    (C3_condition_child_admission c3FreshEnv 1 0).2.1 (by decide) rfl⟩,
   ⟨by decide,
    (C3_condition_child_admission c3FreshEnv 1 1).2.2 (by decide) (by decide)⟩⟩

/-- The C4 counterexample environments: two fresh events, both succeeded. -/
def c4Base : Env := (eventInit (eventInit initialEnv PVal.pending).2 PVal.pending).2

def c4AfterSucceed : Env := (succeed (succeed c4Base 0 (PVal.int 1)).2 1 (PVal.int 2)).2

def c4Final : Res Unit × Env := trigger c4AfterSucceed 0 1

/-- C4 counterexample: `Event.trigger` has no already-triggered guard, so
after `succeed`, a `trigger` call transitions the value a second time and
pushes the event onto the queue a second time (queue event ids `[0, 1, 0]`). -/
theorem C4_counterexample :
    isPending (getEvPure c4AfterSucceed 0).value = false ∧
    (getEvPure c4AfterSucceed 0).value = PVal.int 1 ∧
    c4Final.1 = Res.ok () ∧
    c4Final.2.queue.map QEntry.eid = [0, 1, 0] ∧
    (getEvPure c4Final.2 0).value = PVal.int 2 :=
  ⟨rfl, rfl, rfl, rfl, rfl⟩

/-- C4 (amended).  `succeed` and `fail` enforce the at-most-once discipline:
on an already-triggered event they raise a RuntimeError-kind and leave the
environment unchanged, so along any sequence of `succeed`/`fail` calls an
event's value transitions from pending at most once and the event is pushed
at most once.  `trigger`, however, performs no already-triggered check: it
always copies the source outcome and pushes one more queue entry. -/
theorem C4_triggered_at_most_once (env : Env) (i src : EId) (v e : PVal) (b : Bool) :
    (isPending (getEvPure env i).value = false →
      succeed env i v = (Res.err (Err.py PVal.runtimeError), env)) ∧
    (isExc e = true → isPending (getEvPure env i).value = false →
      fail env i e = (Res.err (Err.py PVal.runtimeError), env)) ∧
    ((getEvPure env src).ok = Option.some b →
      (trigger env i src).1 = Res.ok () ∧
      (trigger env i src).2.queue =
        env.queue ++ [⟨env.now, DEFAULT_PRIORITY, env.eid, i⟩]) := by
  refine ⟨?_, ?_, ?_⟩
  · intro h
    simp [succeed, h]
  · intro he h
    simp [fail, he, h]
  · intro hok
    simp [trigger, schedule, envSetEv, hok]

/-- Witness for the amended C4. -/
theorem C4_triggered_at_most_once_witness :
    (isPending (getEvPure c4AfterSucceed 0).value = false ∧
      succeed c4AfterSucceed 0 (PVal.int 9) =
        (Res.err (Err.py PVal.runtimeError), c4AfterSucceed)) ∧
    (isExc (PVal.userError 1) = true ∧
      fail c4AfterSucceed 0 (PVal.userError 1) =
        (Res.err (Err.py PVal.runtimeError), c4AfterSucceed)) ∧
    ((getEvPure c4AfterSucceed 1).ok = Option.some true ∧
      (trigger c4AfterSucceed 0 1).1 = Res.ok ()) :=
  ⟨⟨rfl, (C4_triggered_at_most_once c4AfterSucceed 0 1 (PVal.int 9) (PVal.userError 1) true).1 rfl⟩,
   ⟨rfl, (C4_triggered_at_most_once c4AfterSucceed 0 1 (PVal.int 9) (PVal.userError 1) true).2.1 rfl rfl⟩,
   ⟨rfl, ((C4_triggered_at_most_once c4AfterSucceed 0 1 (PVal.int 9) (PVal.userError 1) true).2.2 rfl).1⟩⟩

/-- C7.  `Process.interrupt(cause)`: RuntimeError-kind if the target process
has already terminated; RuntimeError-kind if the caller is the process itself
(it is the active process); otherwise it allocates a fresh event carrying an
`Interrupt(cause)` payload, marked failed (`ok = False`) and defused, with
the process's `_resume` as its only callback, scheduled at `now` with high
priority.  An interrupt (or any resume) delivered after the process has
terminated is silently ignored: `_resume` returns with the state unchanged. -/
theorem C7_interrupt_contract (env : Env) (pid : EId) (cause : PVal)
    (fuel : Nat) (evId : EId) :
    (isPending (getEvPure env pid).value = false →
      interruptProc env pid cause = (Res.err (Err.py PVal.runtimeError), env)) ∧
    (isPending (getEvPure env pid).value = true →
      env.activeProc = Option.some pid →
      interruptProc env pid cause = (Res.err (Err.py PVal.runtimeError), env)) ∧
    (isPending (getEvPure env pid).value = true →
      env.activeProc ≠ Option.some pid →
      interruptProc env pid cause =
        (Res.ok (),
         { env with
             events := env.events ++
               [{ value := PVal.interrupt cause, ok := Option.some false,
                  callbacks := Option.some [Callback.procResume pid],
                  defused := true, cond := Option.none, proc := Option.none }],
             queue := env.queue ++
               [⟨env.now, HIGH_PRIORITY, env.eid, env.events.length⟩],
             eid := env.eid + 1 })) ∧
    (isPending (getEvPure env pid).value = false →
      resume fuel env pid evId = (Res.ok (), env)) := by
  refine ⟨?_, ?_, ?_, ?_⟩
  · intro h
    simp [interruptProc, h]
  · intro h1 h2
    simp [interruptProc, h1, h2]
  · intro h1 h2
    simp [interruptProc, eventInit, envSetEv, schedule, h1, h2,
      getEvPure_append_self, set_append_length]
  · intro h
    simp [resume, h]

/-- A terminated process (value set, generator exhausted). -/
def deadProcEnv : Env :=
  { now := 0, queue := [], eid := 0, activeProc := Option.none,
    events := [{ value := PVal.int 3, ok := Option.some true,
                 callbacks := Option.none, defused := false, cond := Option.none,
                 proc := Option.some { gen := GenState.finished, target := Option.none } }] }

/-- A live process that is currently the active process. -/
def selfProcEnv : Env :=
  { now := 0, queue := [], eid := 0, activeProc := Option.some 0,
    events := [{ value := PVal.pending, ok := Option.none,
                 callbacks := Option.some [], defused := false, cond := Option.none,
                 proc := Option.some
                   { gen := GenState.paused (fun _ => Prog.ret PVal.none) Option.none,
                     target := Option.none } }] }

/-- A live process that is not the active process. -/
def idleProcEnv : Env :=
  { now := 0, queue := [], eid := 0, activeProc := Option.none,
    events := [{ value := PVal.pending, ok := Option.none,
                 callbacks := Option.some [], defused := false, cond := Option.none,
                 proc := Option.some
                   { gen := GenState.paused (fun _ => Prog.ret PVal.none) Option.none,
                     target := Option.none } }] }

/-- Witness for C7 on all four branches. -/
theorem C7_interrupt_contract_witness :
    (isPending (getEvPure deadProcEnv 0).value = false ∧
      interruptProc deadProcEnv 0 PVal.none =
        (Res.err (Err.py PVal.runtimeError), deadProcEnv)) ∧
    (isPending (getEvPure selfProcEnv 0).value = true ∧
      selfProcEnv.activeProc = Option.some 0 ∧
      interruptProc selfProcEnv 0 PVal.none =
        (Res.err (Err.py PVal.runtimeError), selfProcEnv)) ∧
    (isPending (getEvPure idleProcEnv 0).value = true ∧
      (interruptProc idleProcEnv 0 (PVal.int 4)).1 = Res.ok () ∧
      (getEvPure (interruptProc idleProcEnv 0 (PVal.int 4)).2 1).value =
        PVal.interrupt (PVal.int 4) ∧
      (getEvPure (interruptProc idleProcEnv 0 (PVal.int 4)).2 1).defused = true ∧
      (interruptProc idleProcEnv 0 (PVal.int 4)).2.queue =
        [⟨0, HIGH_PRIORITY, 0, 1⟩]) ∧
    (resume 9 deadProcEnv 0 0 = (Res.ok (), deadProcEnv)) :=
  ⟨⟨rfl, (C7_interrupt_contract deadProcEnv 0 PVal.none 9 0).1 rfl⟩,
   ⟨rfl, rfl,
    (C7_interrupt_contract selfProcEnv 0 PVal.none 9 0).2.1 rfl rfl⟩,
   ⟨rfl,
    by rw [(C7_interrupt_contract idleProcEnv 0 (PVal.int 4) 9 0).2.2.1 rfl (by decide)],
    by rw [(C7_interrupt_contract idleProcEnv 0 (PVal.int 4) 9 0).2.2.1 rfl (by decide)]; rfl,
    by rw [(C7_interrupt_contract idleProcEnv 0 (PVal.int 4) 9 0).2.2.1 rfl (by decide)]; rfl,
    by rw [(C7_interrupt_contract idleProcEnv 0 (PVal.int 4) 9 0).2.2.1 rfl (by decide)]; rfl⟩,
   (C7_interrupt_contract deadProcEnv 0 PVal.none 9 0).2.2.2 rfl⟩

theorem envSetEv_now (env : Env) (i : EId) (r : EventRec) :
    (envSetEv env i r).now = env.now := rfl

theorem envSetEv_queue (env : Env) (i : EId) (r : EventRec) :
    (envSetEv env i r).queue = env.queue := rfl

theorem envSetEv_eid (env : Env) (i : EId) (r : EventRec) :
    (envSetEv env i r).eid = env.eid := rfl

theorem envSetEv_events_length (env : Env) (i : EId) (r : EventRec) :
    (envSetEv env i r).events.length = env.events.length := by
  simp [envSetEv]

theorem getEvPure_schedule (env : Env) (i : EId) (p : Nat) (d : Int) (j : EId) :
    getEvPure (schedule env i p d) j = getEvPure env j := rfl

theorem schedule_queue (env : Env) (i : EId) (p : Nat) (d : Int) :
    (schedule env i p d).queue = env.queue ++ [⟨env.now + d, p, env.eid, i⟩] := rfl

theorem schedule_now (env : Env) (i : EId) (p : Nat) (d : Int) :
    (schedule env i p d).now = env.now := rfl

theorem schedule_eid (env : Env) (i : EId) (p : Nat) (d : Int) :
    (schedule env i p d).eid = env.eid + 1 := rfl

theorem condCheck_failed_child_general (env : Env) (cid evId : EId) (cr : CondRec)
    (hcond : (getEvPure env cid).cond = Option.some cr)
    (hpend : isPending (getEvPure env cid).value = true)
    (hok : (getEvPure env evId).ok = Option.some false)
    (hexc : isExc (getEvPure env evId).value = true)
    (hne : cid ≠ evId) :
    (condCheck env cid evId).1 = Res.ok () ∧
    (getEvPure (condCheck env cid evId).2 evId).defused = true ∧
    (getEvPure (condCheck env cid evId).2 cid).value = (getEvPure env evId).value ∧
    (getEvPure (condCheck env cid evId).2 cid).ok = Option.some false ∧
    (condCheck env cid evId).2.queue =
      env.queue ++ [⟨env.now, DEFAULT_PRIORITY, env.eid, cid⟩] := by
  have hcidlt : cid < env.events.length := lt_of_cond_some hcond
  have hevlt : evId < env.events.length := lt_of_ok_some hok
  have hnes : evId ≠ cid := Ne.symm hne
  simp only [condCheck, hcond]
  rw [getEvPure_set_self env cid _ hcidlt]
  simp only [hpend, if_true, hok]
  rw [getEvPure_set_ne env cid evId _ hnes]
  simp only [fail, hexc]
  rw [getEvPure_set_ne _ evId cid _ hne, getEvPure_set_self env cid _ hcidlt]
  simp only [hpend, if_true]
  simp [getEvPure_set_self, getEvPure_set_ne, getEvPure_schedule, schedule_queue,
    envSetEv_events_length, hcidlt, hevlt, hne, hnes,
    envSetEv_queue, envSetEv_now, envSetEv_eid]

theorem getEvPure_mk_now_queue (env : Env) (t : Int) (q : List QEntry) (i : EId) :
    getEvPure { env with now := t, queue := q } i = getEvPure env i := rfl

theorem step_failed_general (env : Env) (f : Nat) (m : QEntry) (r : List QEntry)
    (hpop : popMin env.queue = Option.some (m, r))
    (hcb : (getEvPure env m.eid).callbacks = Option.some [])
    (hok : (getEvPure env m.eid).ok = Option.some false) :
    ((getEvPure env m.eid).defused = true → (step (f + 1) env).1 = Res.ok ()) ∧
    ((getEvPure env m.eid).defused = false →
      (step (f + 1) env).1 = Res.err (Err.py (getEvPure env m.eid).value)) := by
  have hlt : m.eid < env.events.length := lt_of_ok_some hok
  constructor <;> intro hd <;>
    simp [step, hpop, stepPopped, runCallbacksFrom, getEvPure_mk_now_queue,
      hcb, hok, hd, getEvPure_set_self, envSetEv_events_length, hlt]

/-- Events 0 and 1 pending, condition 2 = all_of([0, 1]), then event 0 is
failed with a user exception. -/
def c5Env : Env :=
  (fail (conditionInit (eventInit (eventInit initialEnv PVal.pending).2
      PVal.pending).2 CondEval.allEvents [0, 1]).2 0 (PVal.userError 7)).2

def c5Step1 : Res Unit × Env := step 20 c5Env

def c5Step2 : Res Unit × Env := step 20 c5Step1.2

/-- A queue holding one failed, defused event with no callbacks. -/
def c5DefusedEnv : Env :=
  { now := 0, queue := [⟨0, 1, 0, 0⟩], eid := 1, activeProc := Option.none,
    events := [{ value := PVal.userError 1, ok := Option.some false,
                 callbacks := Option.some [], defused := true,
                 cond := Option.none, proc := Option.none }] }

/-- A queue holding one failed, non-defused event with no callbacks. -/
def c5PlainFailEnv : Env :=
  { now := 0, queue := [⟨0, 1, 0, 0⟩], eid := 1, activeProc := Option.none,
    events := [{ value := PVal.userError 1, ok := Option.some false,
                 callbacks := Option.some [], defused := false,
                 cond := Option.none, proc := Option.none }] }

/-- C5.  (a) When a child of a still-pending Condition completes with
`ok = False`, `_check` marks the child defused and fails the condition with
the child's error value, scheduling it at default priority.  (b) `step()` on
a popped failed event whose callbacks have all run: if the event is defused
the error is swallowed, otherwise the error value is re-raised out of
`step()`.  (c) End to end on `all_of([e0, e1])` with `e0.fail(userError 7)`:
the step that processes the defused child returns normally, the condition is
failed with the child's error, and the next step re-raises that error when
it processes the (non-defused) condition after its callbacks have run. -/
theorem C5_defused_failure_propagation :
    (∀ (env : Env) (cid evId : EId) (cr : CondRec),
      (getEvPure env cid).cond = Option.some cr →
      isPending (getEvPure env cid).value = true →
      (getEvPure env evId).ok = Option.some false →
      isExc (getEvPure env evId).value = true →
      cid ≠ evId →
      (condCheck env cid evId).1 = Res.ok () ∧
      (getEvPure (condCheck env cid evId).2 evId).defused = true ∧
      (getEvPure (condCheck env cid evId).2 cid).value = (getEvPure env evId).value ∧
      (getEvPure (condCheck env cid evId).2 cid).ok = Option.some false ∧
      (condCheck env cid evId).2.queue =
        env.queue ++ [⟨env.now, DEFAULT_PRIORITY, env.eid, cid⟩]) ∧
    (∀ (env : Env) (f : Nat) (m : QEntry) (r : List QEntry),
      popMin env.queue = Option.some (m, r) →
      (getEvPure env m.eid).callbacks = Option.some [] →
      (getEvPure env m.eid).ok = Option.some false →
      ((getEvPure env m.eid).defused = true → (step (f + 1) env).1 = Res.ok ()) ∧
      ((getEvPure env m.eid).defused = false →
        (step (f + 1) env).1 = Res.err (Err.py (getEvPure env m.eid).value))) ∧
    (c5Step1.1 = Res.ok () ∧
      (getEvPure c5Step1.2 0).defused = true ∧
      (getEvPure c5Step1.2 2).value = PVal.userError 7 ∧
      (getEvPure c5Step1.2 2).ok = Option.some false ∧
      (getEvPure c5Step1.2 2).defused = false ∧
      c5Step2.1 = Res.err (Err.py (PVal.userError 7))) :=
  ⟨fun env cid evId cr h1 h2 h3 h4 h5 =>
      condCheck_failed_child_general env cid evId cr h1 h2 h3 h4 h5,
   fun env f m r h1 h2 h3 => step_failed_general env f m r h1 h2 h3,
   rfl, rfl, rfl, rfl, rfl, rfl⟩

/-- Witness for C5's quantified parts at concrete states. -/
theorem C5_defused_failure_propagation_witness :
    ((getEvPure c5Env 2).cond.isSome = true ∧
      isPending (getEvPure c5Env 2).value = true ∧
      (getEvPure c5Env 0).ok = Option.some false ∧
      isExc (getEvPure c5Env 0).value = true ∧
      (condCheck c5Env 2 0).1 = Res.ok () ∧
      (getEvPure (condCheck c5Env 2 0).2 0).defused = true) ∧
    (popMin c5DefusedEnv.queue = Option.some (⟨0, 1, 0, 0⟩, []) ∧
      (step 3 c5DefusedEnv).1 = Res.ok ()) ∧
    (popMin c5PlainFailEnv.queue = Option.some (⟨0, 1, 0, 0⟩, []) ∧
      (step 3 c5PlainFailEnv).1 = Res.err (Err.py (PVal.userError 1))) := by
  have h1 := (C5_defused_failure_propagation.1 c5Env 2 0
    { evaluate := CondEval.allEvents, events := [0, 1], subConditions := [],
      interimValues := [] } rfl rfl rfl rfl (by decide))
  have h2 := (C5_defused_failure_propagation.2.1 c5DefusedEnv 2 ⟨0, 1, 0, 0⟩ []
    rfl rfl rfl).1 rfl
  have h3 := (C5_defused_failure_propagation.2.1 c5PlainFailEnv 2 ⟨0, 1, 0, 0⟩ []
    rfl rfl rfl).2 rfl
  exact ⟨⟨rfl, rfl, rfl, rfl, h1.1, h1.2.1⟩, ⟨rfl, h2⟩, ⟨rfl, h3⟩⟩

/-- `run(None)` on an environment holding one timeout. -/
def c2NoneScenario : Res PVal × Env :=
  run 20 (timeoutInit initialEnv 5 (PVal.int 7)).2 Until.noneU

/-- `run(until=3)` on an environment holding one timeout at t=10. -/
def c2TimeScenario : Res PVal × Env :=
  run 20 (timeoutInit initialEnv 10 (PVal.int 1)).2 (Until.time 3)

/-- A routine that waits 3 time units and then succeeds event 0 with 42. -/
def c2EvProg : Prog :=
  Prog.newTimeout 3 PVal.none (fun w =>
    Prog.yieldE w (fun _ => Prog.succeedE 0 (PVal.int 42) (Prog.ret PVal.none))
      Option.none)

/-- `run(until=event 0)` where a process triggers event 0 at t=3. -/
def c2EvScenario : Res PVal × Env :=
  run 40 (processInit (eventInit initialEnv PVal.pending).2 c2EvProg).2
    (Until.event 0)

/-- `run(until=event 0)` where the queue drains without triggering event 0. -/
def c2EvDrainScenario : Res PVal × Env :=
  run 40 (timeoutInit (eventInit initialEnv PVal.pending).2 2 (PVal.int 5)).2
    (Until.event 0)

/-- C2.  `run(until)`: (a) a numeric `until = T ≤ now` raises a
ValueError-kind and changes nothing; (b) a numeric `T > now` allocates a
fresh, already-valued stop event and schedules it at absolute time `T` with
high priority before entering the step loop; (c) `until = None` enters the
loop with a fresh pending event, and `until = event` with that event;
(d) whenever the loop returns normally, the result is `until.value` if the
until event was triggered, else none — so the numeric and None forms return
none, and the event form returns the event's value exactly when it was
triggered; concrete runs of all four outcomes are evaluated. -/
theorem C2_run_contract :
    (∀ (env : Env) (t : Int) (fuel : Nat), t ≤ env.now →
      run fuel env (Until.time t) = (Res.err (Err.py PVal.valueError), env)) ∧
    (∀ (env : Env) (t : Int) (fuel : Nat), env.now < t →
      ∃ env', run fuel env (Until.time t) = finishRun fuel env' env.events.length ∧
        env'.queue = env.queue ++
          [⟨t, HIGH_PRIORITY, env.eid, env.events.length⟩] ∧
        (getEvPure env' env.events.length).value = PVal.none ∧
        (getEvPure env' env.events.length).callbacks = Option.some []) ∧
    (∀ (fuel : Nat) (env : Env),
      run fuel env Until.noneU =
        finishRun fuel (eventInit env PVal.pending).2 (eventInit env PVal.pending).1) ∧
    (∀ (fuel : Nat) (env : Env) (i : EId),
      run fuel env (Until.event i) = finishRun fuel env i) ∧
    (∀ (fuel : Nat) (env : Env) (uid : EId) (res : PVal) (env' : Env),
      finishRun fuel env uid = (Res.ok res, env') →
      res = (if isPending (getEvPure env' uid).value then PVal.none
             else (getEvPure env' uid).value)) ∧
    (c2NoneScenario.1 = Res.ok PVal.none ∧ c2NoneScenario.2.queue = [] ∧
      c2NoneScenario.2.now = 5) ∧
    (c2TimeScenario.1 = Res.ok PVal.none ∧ c2TimeScenario.2.now = 3 ∧
      c2TimeScenario.2.queue = [⟨10, LOW_PRIORITY, 0, 0⟩]) ∧
    (c2EvScenario.1 = Res.ok (PVal.int 42) ∧ c2EvScenario.2.now = 3) ∧
    (c2EvDrainScenario.1 = Res.ok PVal.none) := by
  refine ⟨?_, ?_, ?_, ?_, ?_, ⟨rfl, rfl, rfl⟩, ⟨rfl, rfl, rfl⟩, ⟨rfl, rfl⟩, rfl⟩
  · intro env t fuel h
    simp [run, h]
  · intro env t fuel h
    have hnle : ¬ t ≤ env.now := by omega
    simp only [run, if_neg hnle, eventInit]
    refine ⟨_, rfl, ?_, ?_, ?_⟩
    · have harith : env.now + (t - env.now) = t := by ring
      simp [schedule_queue, envSetEv_queue, envSetEv_now, envSetEv_eid, harith]
    · have hlen : env.events.length <
          ({ env with events := env.events ++ [defaultEventRec] }).events.length := by
        simp
      rw [getEvPure_schedule]
      rw [getEvPure_set_self _ _ _ (by simp)]
    · rw [getEvPure_schedule]
      rw [getEvPure_set_self _ _ _ (by simp)]
      rw [getEvPure_append_self]
  · intro fuel env
    rfl
  · intro fuel env i
    rfl
  · intro fuel env uid res env' h
    cases hcb : (getEvPure env uid).callbacks with
    | none => simp [finishRun, hcb] at h
    | some l =>
      simp only [finishRun, hcb] at h
      rcases hrl : runLoop fuel (envSetEv env uid
          { getEvPure env uid with
              callbacks := Option.some (l ++ [Callback.stopSimulate]) }) with ⟨r2, env2⟩
      rw [hrl] at h
      match r2 with
      | Res.ok _ =>
        simp only [Prod.mk.injEq, Res.ok.injEq] at h
        rw [← h.2, ← h.1]
      | Res.err Err.emptySchedule =>
        simp only [Prod.mk.injEq, Res.ok.injEq] at h
        rw [← h.2, ← h.1]
      | Res.err (Err.py e) => simp at h
      | Res.err Err.attrError => simp at h
      | Res.err Err.outOfFuel => simp at h

/-- Witness for C2's quantified parts at concrete states. -/
theorem C2_run_contract_witness :
    ((0 : Int) ≤ initialEnv.now ∧
      run 5 initialEnv (Until.time 0) = (Res.err (Err.py PVal.valueError), initialEnv)) ∧
    (initialEnv.now < 4 ∧
      ∃ env', run 5 initialEnv (Until.time 4) = finishRun 5 env' 0 ∧
        env'.queue = [⟨4, HIGH_PRIORITY, 0, 0⟩]) ∧
    ((finishRun 3 c5PlainFailEnv 0).1 = Res.ok (PVal.userError 1) ∧
      PVal.userError 1 =
        (if isPending (getEvPure (finishRun 3 c5PlainFailEnv 0).2 0).value then PVal.none
         else (getEvPure (finishRun 3 c5PlainFailEnv 0).2 0).value)) := by
  refine ⟨⟨by decide, C2_run_contract.1 initialEnv 0 5 (by decide)⟩, ?_, ?_⟩
  · refine ⟨by decide, ?_⟩
    obtain ⟨env', h1, h2, h3, h4⟩ := C2_run_contract.2.1 initialEnv 4 5 (by decide)
    exact ⟨env', h1, by simpa using h2⟩
  · exact ⟨rfl,
      C2_run_contract.2.2.2.2.1 3 c5PlainFailEnv 0 (PVal.userError 1)
        (finishRun 3 c5PlainFailEnv 0).2 (by rfl)⟩

theorem condCheck_all_success_general (env : Env) (cid evId : EId) (cr : CondRec)
    (hcond : (getEvPure env cid).cond = Option.some cr)
    (hev : cr.evaluate = CondEval.allEvents)
    (hpend : isPending (getEvPure env cid).value = true)
    (hok : (getEvPure env evId).ok = Option.some true)
    (_hne : cid ≠ evId) :
    ((dictSet cr.interimValues evId (getEvPure env evId).value).length =
        cr.events.length →
      (condCheck env cid evId).1 = Res.ok () ∧
      (getEvPure (condCheck env cid evId).2 cid).value = PVal.dict [] ∧
      (getEvPure (condCheck env cid evId).2 cid).ok = Option.some true ∧
      (condCheck env cid evId).2.queue =
        env.queue ++ [⟨env.now, DEFAULT_PRIORITY, env.eid, cid⟩]) ∧
    ((dictSet cr.interimValues evId (getEvPure env evId).value).length ≠
        cr.events.length →
      (condCheck env cid evId).1 = Res.ok () ∧
      isPending (getEvPure (condCheck env cid evId).2 cid).value = true ∧
      (condCheck env cid evId).2.queue = env.queue) ∧
    (getEvPure (condCheck env cid evId).2 cid).cond =
      Option.some
        { cr with interimValues :=
            dictSet cr.interimValues evId (getEvPure env evId).value } := by
  have hcidlt : cid < env.events.length := lt_of_cond_some hcond
  by_cases hl : (dictSet cr.interimValues evId (getEvPure env evId).value).length =
      cr.events.length
  · have hbeq : (cr.events.length ==
        (dictSet cr.interimValues evId (getEvPure env evId).value).length) = true := by
      simp [hl]
    refine ⟨fun _ => ?_, fun hcontra => absurd hl hcontra, ?_⟩ <;>
    · simp only [condCheck, hcond]
      rw [getEvPure_set_self env cid _ hcidlt]
      simp only [hpend, if_true, hok, hev, evalCond, hbeq, succeed]
      rw [getEvPure_set_self _ cid _ (by simp [envSetEv_events_length, hcidlt])]
      simp only [hpend, if_true]
      simp [getEvPure_set_self, getEvPure_set_ne, getEvPure_schedule, schedule_queue,
        envSetEv_events_length, hcidlt, envSetEv_queue, envSetEv_now, envSetEv_eid]
  · have hbeq : (cr.events.length ==
        (dictSet cr.interimValues evId (getEvPure env evId).value).length) = false := by
      simp
      omega
    refine ⟨fun hcontra => absurd hcontra hl, fun _ => ?_, ?_⟩ <;>
    · simp only [condCheck, hcond]
      rw [getEvPure_set_self env cid _ hcidlt]
      simp only [hpend, if_true, hok, hev, evalCond, hbeq]
      simp [getEvPure_set_self, envSetEv_events_length, hcidlt, envSetEv_queue, hpend]

/-- Builds `n` timeouts with delays and values `i, i+1, ...` and passes the
list of their ids (in creation order) to the continuation. -/
def buildTimeouts : Nat → Nat → List EId → (List EId → Prog) → Prog
  | 0, _, acc, k => k acc.reverse
  | Nat.succ m, i, acc, k =>
      Prog.newTimeout (Int.ofNat i) (PVal.int (Int.ofNat i))
        (fun t => buildTimeouts m (i + 1) (t :: acc) k)

/-- Ten timeouts with delays/values 0..9, yield their all-of, return the
delivered result map. -/
def allOfProg : Prog :=
  buildTimeouts 10 0 [] (fun ts =>
    Prog.newCondition CondEval.allEvents ts (fun c =>
      Prog.yieldE c (fun r => Prog.ret r) Option.none))

def allOfScenario : Res PVal × Env :=
  run 60 (processInit initialEnv allOfProg).2 Until.noneU

/-- Ids in `allOfScenario`: process 0, bootstrap 1, run's stop event 2,
the ten timeouts 3..12, the all-of condition 13; the expected result map. -/
def allOfExpected : PVal :=
  PVal.dict [(3, PVal.int 0), (4, PVal.int 1), (5, PVal.int 2), (6, PVal.int 3),
             (7, PVal.int 4), (8, PVal.int 5), (9, PVal.int 6), (10, PVal.int 7),
             (11, PVal.int 8), (12, PVal.int 9)]

/-- C6.  all-of correctness: (a) the `all_events` predicate holds exactly
when every child has a recorded value (`len(events) == len(values)`);
(b) `_check` on a successful child of a pending all-of condition records the
child's value and succeeds the condition exactly when the updated interim map
covers all children (otherwise the condition stays pending and nothing is
scheduled); (c) end to end, ten timeouts with delays and values 0..9 yielded
through their all-of resume the process with result map
`{timeout_i: i}` for i in 0..9 at `env.now = 9`, and the same map is the
condition's own value. -/
theorem C6_all_of_correct :
    (∀ (events : List EId) (values : List (Nat × PVal)),
      evalCond CondEval.allEvents events values = true ↔
        events.length = values.length) ∧
    (∀ (env : Env) (cid evId : EId) (cr : CondRec),
      (getEvPure env cid).cond = Option.some cr →
      cr.evaluate = CondEval.allEvents →
      isPending (getEvPure env cid).value = true →
      (getEvPure env evId).ok = Option.some true →
      cid ≠ evId →
      ((dictSet cr.interimValues evId (getEvPure env evId).value).length =
          cr.events.length →
        (condCheck env cid evId).1 = Res.ok () ∧
        (getEvPure (condCheck env cid evId).2 cid).value = PVal.dict [] ∧
        (getEvPure (condCheck env cid evId).2 cid).ok = Option.some true ∧
        (condCheck env cid evId).2.queue =
          env.queue ++ [⟨env.now, DEFAULT_PRIORITY, env.eid, cid⟩]) ∧
      ((dictSet cr.interimValues evId (getEvPure env evId).value).length ≠
          cr.events.length →
        (condCheck env cid evId).1 = Res.ok () ∧
        isPending (getEvPure (condCheck env cid evId).2 cid).value = true ∧
        (condCheck env cid evId).2.queue = env.queue) ∧
      (getEvPure (condCheck env cid evId).2 cid).cond =
        Option.some
          { cr with interimValues :=
              dictSet cr.interimValues evId (getEvPure env evId).value }) ∧
    (allOfScenario.1 = Res.ok PVal.none ∧
      allOfScenario.2.now = 9 ∧
      (getEvPure allOfScenario.2 0).value = allOfExpected ∧
      (getEvPure allOfScenario.2 0).ok = Option.some true ∧
      (getEvPure allOfScenario.2 13).value = allOfExpected ∧
      (getEvPure allOfScenario.2 13).ok = Option.some true) := by
  refine ⟨?_, ?_, rfl, rfl, rfl, rfl, rfl, rfl⟩
  · intro events values
    simp [evalCond]
  · intro env cid evId cr h1 h2 h3 h4 h5
    exact condCheck_all_success_general env cid evId cr h1 h2 h3 h4 h5

/-- A pending all-of condition (event 1) over the single already-successful
child event 0. -/
def c6ReadyEnv : Env :=
  { now := 0, queue := [], eid := 0, activeProc := Option.none,
    events := [{ value := PVal.int 5, ok := Option.some true,
                 callbacks := Option.some [], defused := false,
                 cond := Option.none, proc := Option.none },
               { value := PVal.pending, ok := Option.none,
                 callbacks := Option.some [Callback.collectValues 1],
                 defused := false,
                 cond := Option.some
                   { evaluate := CondEval.allEvents, events := [0],
                     subConditions := [], interimValues := [] },
                 proc := Option.none }] }

/-- The same but the condition still waits for a second child (id 2). -/
def c6WaitEnv : Env :=
  { now := 0, queue := [], eid := 0, activeProc := Option.none,
    events := [{ value := PVal.int 5, ok := Option.some true,
                 callbacks := Option.some [], defused := false,
                 cond := Option.none, proc := Option.none },
               { value := PVal.pending, ok := Option.none,
                 callbacks := Option.some [Callback.collectValues 1],
                 defused := false,
                 cond := Option.some
                   { evaluate := CondEval.allEvents, events := [0, 2],
                     subConditions := [], interimValues := [] },
                 proc := Option.none }] }

/-- Witness for C6's quantified parts. -/
theorem C6_all_of_correct_witness :
    (evalCond CondEval.allEvents ([] : List EId) ([] : List (Nat × PVal)) = true ↔
      (0 : Nat) = 0) ∧
    ((condCheck c6ReadyEnv 1 0).1 = Res.ok () ∧
      (getEvPure (condCheck c6ReadyEnv 1 0).2 1).value = PVal.dict [] ∧
      (getEvPure (condCheck c6ReadyEnv 1 0).2 1).ok = Option.some true ∧
      (condCheck c6ReadyEnv 1 0).2.queue = [⟨0, DEFAULT_PRIORITY, 0, 1⟩]) ∧
    ((condCheck c6WaitEnv 1 0).1 = Res.ok () ∧
      isPending (getEvPure (condCheck c6WaitEnv 1 0).2 1).value = true ∧
      (condCheck c6WaitEnv 1 0).2.queue = []) := by
  refine ⟨C6_all_of_correct.1 [] [], ?_, ?_⟩
  · have h := ((C6_all_of_correct.2.1 c6ReadyEnv 1 0
      { evaluate := CondEval.allEvents, events := [0], subConditions := [],
        interimValues := [] } rfl rfl rfl rfl (by decide)).1 (by decide))
    exact ⟨h.1, h.2.1, h.2.2.1, h.2.2.2⟩
  · have h := ((C6_all_of_correct.2.1 c6WaitEnv 1 0
      { evaluate := CondEval.allEvents, events := [0, 2], subConditions := [],
        interimValues := [] } rfl rfl rfl rfl (by decide)).2.1 (by decide))
    exact ⟨h.1, h.2.1, h.2.2⟩

/-- Timeouts t0,t1,t2 with delays/values 0,1,2; yield `t0 | (t1 & t2)`;
then wait two more time units and return the captured result. -/
def immProg : Prog :=
  Prog.newTimeout 0 (PVal.int 0) (fun t0 =>
  Prog.newTimeout 1 (PVal.int 1) (fun t1 =>
  Prog.newTimeout 2 (PVal.int 2) (fun t2 =>
  Prog.newCondition CondEval.allEvents [t1, t2] (fun inner =>
  Prog.newCondition CondEval.anyEvents [t0, inner] (fun outer =>
  Prog.yieldE outer (fun r =>
  Prog.newTimeout 2 PVal.none (fun w =>
  Prog.yieldE w (fun _ => Prog.ret r) Option.none)) Option.none)))))

def immScenario : Res PVal × Env :=
  run 60 (processInit initialEnv immProg).2 Until.noneU

def immMid : Res PVal × Env :=
  run 60 (processInit initialEnv immProg).2 (Until.time 1)

/-- A processed any-of condition (event 1) whose result map is `{0: 5}`. -/
def c9DoneEnv : Env :=
  { now := 0, queue := [], eid := 0, activeProc := Option.none,
    events := [{ value := PVal.int 5, ok := Option.some true,
                 callbacks := Option.some [], defused := false,
                 cond := Option.none, proc := Option.none },
               { value := PVal.dict [(0, PVal.int 5)], ok := Option.some true,
                 callbacks := Option.none, defused := false,
                 cond := Option.some
                   { evaluate := CondEval.anyEvents, events := [0, 2],
                     subConditions := [], interimValues := [(0, PVal.int 5)] },
                 proc := Option.none }] }

/-- C9.  Once a Condition is no longer pending, `_check` fired by any later
child completion only records the child in `_interim_values`: the condition's
`_value` (its result map), `ok` flag, all other events and the queue are
untouched.  Concretely, for `cond = t0 | (t1 & t2)` with delays 0,1,2 the
result map is `{t0: 0}` once processed at t=0 (observed after stopping at
t=1) and is still `{t0: 0}` after the run ends at t=2, even though the inner
and-condition completed at t=2 in the meantime; the captured result returned
by the process is the same map. -/
theorem C9_condition_results_immutable :
    (∀ (env : Env) (cid evId : EId) (cr : CondRec),
      (getEvPure env cid).cond = Option.some cr →
      isPending (getEvPure env cid).value = false →
      condCheck env cid evId =
        (Res.ok (), envSetEv env cid
          { getEvPure env cid with
              cond := Option.some
                { cr with
                    interimValues :=
                      dictSet cr.interimValues evId (getEvPure env evId).value } }) ∧
      (getEvPure (condCheck env cid evId).2 cid).value = (getEvPure env cid).value ∧
      (getEvPure (condCheck env cid evId).2 cid).ok = (getEvPure env cid).ok ∧
      (condCheck env cid evId).2.queue = env.queue ∧
      (∀ j, j ≠ cid → getEvPure (condCheck env cid evId).2 j = getEvPure env j)) ∧
    (immMid.2.now = 1 ∧
      (getEvPure immMid.2 7).value = PVal.dict [(3, PVal.int 0)] ∧
      immScenario.2.now = 2 ∧
      (getEvPure immScenario.2 7).value = PVal.dict [(3, PVal.int 0)] ∧
      (getEvPure immScenario.2 0).value = PVal.dict [(3, PVal.int 0)] ∧
      (getEvPure immScenario.2 6).ok = Option.some true ∧
      (getEvPure immScenario.2 6).value =
        PVal.dict [(4, PVal.int 1), (5, PVal.int 2)]) := by
  refine ⟨?_, rfl, rfl, rfl, rfl, rfl, rfl, rfl⟩
  intro env cid evId cr hcond hpend
  have hcidlt : cid < env.events.length := lt_of_cond_some hcond
  have heq : condCheck env cid evId =
      (Res.ok (), envSetEv env cid
        { getEvPure env cid with
            cond := Option.some
              { cr with
                  interimValues :=
                    dictSet cr.interimValues evId (getEvPure env evId).value } }) := by
    simp only [condCheck, hcond]
    rw [getEvPure_set_self env cid _ hcidlt]
    simp [hpend]
  refine ⟨heq, ?_, ?_, ?_, ?_⟩
  · rw [heq, getEvPure_set_self env cid _ hcidlt]
  · rw [heq, getEvPure_set_self env cid _ hcidlt]
  · rw [heq, envSetEv_queue]
  · intro j hj
    rw [heq]
    exact getEvPure_set_ne env cid j _ hj

/-- Witness for C9's quantified part. -/
theorem C9_condition_results_immutable_witness :
    ((getEvPure c9DoneEnv 1).cond.isSome = true ∧
      isPending (getEvPure c9DoneEnv 1).value = false ∧
      (getEvPure (condCheck c9DoneEnv 1 0).2 1).value = PVal.dict [(0, PVal.int 5)] ∧
      (condCheck c9DoneEnv 1 0).2.queue = []) := by
  have h := (C9_condition_results_immutable.1 c9DoneEnv 1 0
    { evaluate := CondEval.anyEvents, events := [0, 2], subConditions := [],
      interimValues := [(0, PVal.int 5)] } rfl rfl)
  refine ⟨rfl, rfl, ?_, ?_⟩
  · rw [h.2.1]; rfl
  · rw [h.2.2.2.1]; rfl

/-- A routine that yields a pending timeout first and then yields a timeout
that has already been processed. -/
def processedYieldProg : Prog :=
  Prog.newTimeout 0 (PVal.int 42) (fun t =>
  Prog.newTimeout 1 (PVal.int 1) (fun w =>
  Prog.yieldE w (fun _ => Prog.yieldE t (fun r => Prog.ret r) Option.none)
    Option.none))

def pyScenario : Res PVal × Env :=
  run 40 (processInit initialEnv processedYieldProg).2 Until.noneU

/-- Routine body paused inside `c10Env`: yield the processed event 1. -/
def c10Cont : PVal → Prog := fun _ => Prog.yieldE 1 (fun r => Prog.ret r) Option.none

/-- A live process 0 paused at `c10Cont`, a processed event 1 (closed
callback list, value 42), and a triggered event 2 being delivered. -/
def c10Env : Env :=
  { now := 1, queue := [], eid := 0, activeProc := Option.some 0,
    events := [{ value := PVal.pending, ok := Option.none,
                 callbacks := Option.some [], defused := false,
                 cond := Option.none,
                 proc := Option.some
                   { gen := GenState.paused c10Cont Option.none,
                     target := Option.some 2 } },
               { value := PVal.int 42, ok := Option.some true,
                 callbacks := Option.none, defused := false,
                 cond := Option.none, proc := Option.none },
               { value := PVal.none, ok := Option.some true,
                 callbacks := Option.some [], defused := false,
                 cond := Option.none, proc := Option.none }] }

/-- C10.  When the routine yields an event whose callback list is closed
(the event was already processed), the driver loop of `_resume` raises no
invalid-yield error and does not suspend the process: it continues
immediately within the same call, delivering that event into the routine —
the loop-step equation reduces to a recursive `resumeLoop` call on the
processed event.  Concretely, a routine that yields an already-processed
timeout carrying 42 is resumed with 42 at once and terminates with value 42
at t=1, and the whole run ends without error. -/
theorem C10_processed_yield_continues :
    (∀ (fuel : Nat) (env env1 : Env) (pid evId tid : EId)
        (k k2 : PVal → Prog) (h h2 : Option (PVal → Prog))
        (tgt : Option EId) (pr1 : ProcRec),
      (getEvPure env pid).proc =
        Option.some { gen := GenState.paused k h, target := tgt } →
      (getEvPure env evId).ok = Option.some true →
      progRun fuel env (k (getEvPure env evId).value) =
        (Res.ok (ProgOut.yielded tid k2 h2), env1) →
      (getEvPure env1 tid).callbacks = Option.none →
      (getEvPure env1 pid).proc = Option.some pr1 →
      resumeLoop (fuel + 1) env pid evId =
        resumeLoop fuel
          (envSetEv env1 pid
            { getEvPure env1 pid with
                proc := Option.some
                  { gen := GenState.paused k2 h2, target := pr1.target } })
          pid tid) ∧
    (pyScenario.1 = Res.ok PVal.none ∧
      pyScenario.2.now = 1 ∧
      (getEvPure pyScenario.2 0).value = PVal.int 42 ∧
      (getEvPure pyScenario.2 0).ok = Option.some true) := by
  refine ⟨?_, rfl, rfl, rfl, rfl⟩
  intro fuel env env1 pid evId tid k k2 h h2 tgt pr1 hp hok hprog hcb hp1
  simp only [resumeLoop, hp, hok, hprog, hcb, hp1]

/-- Witness for C10's quantified part: the loop continues within the same
call and the process ends up terminated with the processed event's value. -/
theorem C10_processed_yield_continues_witness :
    isPending (getEvPure c10Env 0).value = true ∧
    (getEvPure c10Env 1).callbacks = Option.none ∧
    (resumeLoop 6 c10Env 0 2).1 = Res.ok () ∧
    (getEvPure (resumeLoop 6 c10Env 0 2).2 0).value = PVal.int 42 ∧
    (getEvPure (resumeLoop 6 c10Env 0 2).2 0).ok = Option.some true := by
  have h := C10_processed_yield_continues.1 5 c10Env c10Env 0 2 1
    c10Cont (fun r => Prog.ret r) Option.none Option.none (Option.some 2)
    { gen := GenState.paused c10Cont Option.none, target := Option.some 2 }
    rfl rfl rfl rfl rfl
  refine ⟨rfl, rfl, ?_, ?_, ?_⟩
  · rw [h]; rfl
  · rw [h]; rfl
  · rw [h]; rfl

end SimPy
